import Mathlib

/-!
Shallow embedding of the btk repository (a USB-keyboard-to-Bluetooth-HID
relay written in Go).  The definitions below are translated from the Go
source: the keyboard relay in the btk package (Keyboard, Client, Connect,
Disconnect, handleHandshake, HandleHID) and the raw L2CAP socket layer in
bluetooth.go (Accept, Close, rawSockaddrL2 packing).  Bytes are modelled
as Nat values below 256, socket writes as lists of byte lists, and the
kernel as explicit oracles (lists of syscall results, a table of open
file descriptors).
-/

namespace Btk

/-- Error values that the socket layer can surface.  einval models
unix.EINVAL, ebadf models the kernel reply to close on a descriptor that
is not open, eOther stands for any other distinguished fatal errno. -/
inductive BtError where
  | einval
  | ebadf
  | eOther
  deriving DecidableEq, Repr

/-! ### HIDP constants, from the const block of the btk package -/

def hidpHeaderTransMask : Nat := 0xf0

def hidpTransHandshake : Nat := 0x00

def hidpTransSetProtocol : Nat := 0x60

def hidpTransData : Nat := 0xa0

def hidpHshkSuccessful : Nat := 0x00

def hidpHshkErrUnknown : Nat := 0x0e

/-- One iteration of the switch in handleHandshake, given the first byte
r0 of a successfully read control-channel message.  Returns the list of
writes issued to the control socket (each write a list of bytes).  The
source masks the byte with hidpHeaderTransMask and then tests the result
with bitwise AND against hidpTransSetProtocol and hidpTransData, in that
order; the default branch replies with the unknown-error handshake. -/
def handshakeReply (r0 : Nat) : List (List Nat) :=
  let msgTyp := r0 &&& hidpHeaderTransMask
  if msgTyp &&& hidpTransSetProtocol ≠ 0 then
    [[hidpTransHandshake ||| hidpHshkSuccessful]]
  else if msgTyp &&& hidpTransData ≠ 0 then
    []
  else
    [[hidpTransHandshake ||| hidpHshkErrUnknown]]

/-! ### Keyboard relay data model (btk package) -/

/-- A bluetooth client: device identity (the dbus object path, modelled
as a Nat), plus identifiers of its interrupt and control sockets.  The
Done channel is modelled by the doneFired effect flag of Disconnect. -/
structure Client where
  dev : Nat
  sintr : Nat
  sctrl : Nat
  deriving DecidableEq, Repr

/-- The keyboard state visible to Connect and Disconnect: the single
active-client slot (a nil-able pointer in the source, hence Option). -/
structure Keyboard where
  client : Option Client
  deriving DecidableEq, Repr

/-- Number of clients stored in the active-client slot. -/
def activeCount (kb : Keyboard) : Nat :=
  match kb.client with
  | none => 0
  | some _ => 1

/-- Result of Keyboard.Connect. -/
inductive ConnectResult where
  | inUse
  | helloWriteError (which : Nat)
  | ok
  deriving DecidableEq, Repr

/-- Keyboard.Connect, translated from the source.  Under the keyboard
lock: if the slot is occupied, return the keyboard-in-use error; else
store the client, then issue the two hello writes on the control socket.
The oracle booleans w1 and w2 say whether each write succeeds; a failed
write returns an error without rolling back the stored client. -/
def Connect (kb : Keyboard) (c : Client) (w1 w2 : Bool) :
    Keyboard × ConnectResult :=
  match kb.client with
  | some _ => (kb, ConnectResult.inUse)
  | none =>
    let kb2 : Keyboard := { client := some c }
    if ¬ w1 then (kb2, ConnectResult.helloWriteError 1)
    else if ¬ w2 then (kb2, ConnectResult.helloWriteError 2)
    else (kb2, ConnectResult.ok)

/-- How a Disconnect call ends: either it returns an error value
(none meaning a nil Go error), or it panics with a nil-pointer
dereference. -/
inductive DisconnectOutcome where
  | returned (err : Option BtError)
  | panicked
  deriving DecidableEq, Repr

/-- The full effect of a Disconnect call: the new keyboard state, the
outcome, whether Close was invoked on the control and interrupt sockets,
and whether the Done channel of the active client was closed. -/
structure DisconnectResult where
  kb : Keyboard
  outcome : DisconnectOutcome
  closedSctrl : Bool
  closedSintr : Bool
  doneFired : Bool
  deriving DecidableEq, Repr

/-- Keyboard.Disconnect, translated from the source.  The guard is
  if client == nil or client.Dev != kb.client.Dev then return nil
so when the argument is non-nil and the slot is empty, evaluating
kb.client.Dev dereferences a nil pointer and panics.  On the matching
path a deferred block closes Done and clears the slot, running no matter
how the socket closes go; Sctrl is closed first and its error, when any,
is returned, else the result of closing Sintr is returned.  The oracles
ctrlErr and intrErr are the results of the two Close calls. -/
def Disconnect (kb : Keyboard) (c : Option Client)
    (ctrlErr intrErr : Option BtError) : DisconnectResult :=
  match c with
  | none =>
    { kb := kb, outcome := DisconnectOutcome.returned none
      closedSctrl := false, closedSintr := false, doneFired := false }
  | some cl =>
    match kb.client with
    | none =>
      { kb := kb, outcome := DisconnectOutcome.panicked
        closedSctrl := false, closedSintr := false, doneFired := false }
    | some active =>
      if cl.dev ≠ active.dev then
        { kb := kb, outcome := DisconnectOutcome.returned none
          closedSctrl := false, closedSintr := false, doneFired := false }
      else
        match ctrlErr with
        | some e =>
          { kb := { client := none }
            outcome := DisconnectOutcome.returned (some e)
            closedSctrl := true, closedSintr := false, doneFired := true }
        | none =>
          { kb := { client := none }
            outcome := DisconnectOutcome.returned intrErr
            closedSctrl := true, closedSintr := true, doneFired := true }

/-- One iteration of the HandleHID loop after the USB read, translated
from the source: a failed read is logged and skipped; on a successful
read of the report bytes, when no client is active nothing is written,
otherwise one frame 0xA1 followed by the report is written to the
interrupt socket of the active client.  The result is the list of
interrupt-socket writes the iteration issues, tagged with the socket. -/
def handleHIDIteration (readResult : Option (List Nat))
    (client : Option Client) : List (Nat × List Nat) :=
  match readResult with
  | none => []
  | some state =>
    match client with
    | none => []
    | some c => [(c.sintr, 0xA1 :: state)]

/-! ### Event sequences over the active-client slot -/

/-- An external event hitting the active-client slot: a Connect call
with its two write-oracle results, or a Disconnect call with its two
close-oracle results. -/
inductive KEvent where
  | conn (c : Client) (w1 w2 : Bool)
  | disc (c : Option Client) (ctrlErr intrErr : Option BtError)
  deriving DecidableEq, Repr

/-- One event step on the keyboard state; none when the step panics. -/
def step (kb : Keyboard) (e : KEvent) : Option Keyboard :=
  match e with
  | KEvent.conn c w1 w2 => some (Connect kb c w1 w2).1
  | KEvent.disc c e1 e2 =>
    let r := Disconnect kb c e1 e2
    match r.outcome with
    | DisconnectOutcome.panicked => none
    | DisconnectOutcome.returned _ => some r.kb

/-- Run a sequence of events from a keyboard state. -/
def run (kb : Keyboard) : List KEvent → Option Keyboard
  | [] => some kb
  | e :: es =>
    match step kb e with
    | none => none
    | some kb2 => run kb2 es

/-! ### L2CAP socket layer (bluetooth.go) -/

/-- The Bluetooth address family constant unix.AF_BLUETOOTH. -/
def AF_BLUETOOTH : Nat := 31

/-- Byte layout of rawSockaddrL2: Family uint16, Psm uint16, Bdaddr
[6]uint8, packed in field order with the 16-bit fields little endian
(the byte order of the target), total size 10 bytes. -/
def packRawSockaddrL2 (family psm : Nat) (bdaddr : List Nat) : List Nat :=
  [family % 256, family / 256 % 256, psm % 256, psm / 256 % 256] ++ bdaddr

/-- sockaddr of sockaddrL2: fills the raw struct with family
AF_BLUETOOTH, the PSM and the device address, and hands out its bytes. -/
def sockaddr (psm : Nat) (bdaddr : List Nat) : List Nat :=
  packRawSockaddrL2 AF_BLUETOOTH psm bdaddr

/-- Reading a rawSockaddrL2 back from its bytes, as Accept does when it
builds the remote sockaddrL2 from the raw struct the kernel filled:
the PSM from bytes 2 and 3, the device address from bytes 4 to 9. -/
def unpackPsm (b : List Nat) : Nat :=
  b.getD 2 0 + 256 * b.getD 3 0

def unpackBdaddr (b : List Nat) : List Nat :=
  (b.drop 4).take 6

/-- One kernel accept syscall result, as seen by the retry loop. -/
inductive AcceptRes where
  | eagain
  | econnaborted
  | fatal (e : BtError)
  | ok (fd psm : Nat) (bdaddr : List Nat)
  deriving DecidableEq, Repr

/-- How the accept retry loop ends. -/
inductive AcceptOutcome where
  | pending
  | fatalErr (e : BtError) (closedPartial : Bool)
  | success (fd psm : Nat) (bdaddr : List Nat)
  deriving DecidableEq, Repr

/-- The retry loop inside Accept, translated from the source, driven by
the list of kernel accept results.  EAGAIN sleeps about one millisecond
(counted in the first component) and retries; ECONNABORTED retries at
once; any other error closes the partial descriptor and ends the loop
with that error; a good descriptor ends the loop with the connection.
An exhausted oracle list means the loop is still running (pending). -/
def acceptLoop : List AcceptRes → Nat → Nat × AcceptOutcome
  | [], sleeps => (sleeps, AcceptOutcome.pending)
  | AcceptRes.eagain :: rest, sleeps => acceptLoop rest (sleeps + 1)
  | AcceptRes.econnaborted :: rest, sleeps => acceptLoop rest sleeps
  | AcceptRes.fatal e :: _, sleeps => (sleeps, AcceptOutcome.fatalErr e true)
  | AcceptRes.ok fd psm addr :: _, sleeps =>
    (sleeps, AcceptOutcome.success fd psm addr)

/-- What Accept returns to its caller. -/
inductive AcceptReturn where
  | conn (fd psm : Nat) (bdaddr : List Nat)
  | err (e : BtError)
  | blocked
  deriving DecidableEq, Repr

/-- Bluetooth.Accept, translated from the source: the retry loop, then
SetBlocking(false) on the accepted socket, whose oracle result is sb
(none meaning success).  Returns the number of sleeps taken and the
value handed to the caller. -/
def Accept (kernel : List AcceptRes) (sb : Option BtError) :
    Nat × AcceptReturn :=
  match acceptLoop kernel 0 with
  | (s, AcceptOutcome.pending) => (s, AcceptReturn.blocked)
  | (s, AcceptOutcome.fatalErr e _) => (s, AcceptReturn.err e)
  | (s, AcceptOutcome.success fd psm addr) =>
    match sb with
    | none => (s, AcceptReturn.conn fd psm addr)
    | some e => (s, AcceptReturn.err e)

/-- A transient accept result: one the loop retries past. -/
@[reducible] def transientRes (r : AcceptRes) : Prop :=
  r = AcceptRes.eagain ∨ r = AcceptRes.econnaborted

/-- The number of eagain entries in a list of kernel results; each one
costs the loop one sleep. -/
def countEagain : List AcceptRes → Nat
  | [] => 0
  | AcceptRes.eagain :: rest => countEagain rest + 1
  | _ :: rest => countEagain rest

/-- The kernel file-descriptor table, as the list of open descriptors;
the close syscall removes an open descriptor and answers EBADF on a
descriptor that is not open. -/
def unixClose (table : List Int) (fd : Int) : List Int × Option BtError :=
  if fd ∈ table then (table.erase fd, none)
  else (table, some BtError.ebadf)

/-- Bluetooth.Close, translated from the source: under the socket lock,
return EINVAL when the stored descriptor is not positive, else invoke
the kernel close on it and return its result.  The stored descriptor is
not changed by the call. -/
def btClose (table : List Int) (fd : Int) : List Int × Option BtError :=
  if fd ≤ 0 then (table, some BtError.einval)
  else unixClose table fd

/-! ### Concrete fixtures used by witnesses -/

/-- A concrete client used in witnesses. -/
def cA : Client := { dev := 1, sintr := 10, sctrl := 11 }

/-- A second concrete client with a different identity. -/
def cB : Client := { dev := 2, sintr := 20, sctrl := 21 }

/-! ### Helper lemmas -/

/-- A transient run of kernel results only accumulates sleeps: the loop
moves past it, adding one sleep per eagain entry. -/
theorem acceptLoop_append_transient (pre : List AcceptRes) :
    ∀ (l : List AcceptRes) (s : Nat), (∀ r ∈ pre, transientRes r) →
      acceptLoop (pre ++ l) s = acceptLoop l (s + countEagain pre) := by
  induction pre with
  | nil => intro l s _; simp [countEagain]
  | cons r rest ih =>
    intro l s h
    have hr : transientRes r := h r (List.mem_cons_self r rest)
    have hrest : ∀ x ∈ rest, transientRes x :=
      fun x hx => h x (List.mem_cons_of_mem r hx)
    cases hr with
    | inl he =>
      subst he
      simp only [List.cons_append, acceptLoop, countEagain]
      rw [List.append_eq, ih l (s + 1) hrest]
      congr 1
      omega
    | inr he =>
      subst he
      simp only [List.cons_append, acceptLoop, countEagain]
      rw [List.append_eq]
      exact ih l s hrest

/-! ### Claim theorems -/

/-- C1 evidence: the handshake responder evaluated at the inputs where
the code diverges from the specified per-nibble behaviour.  The switch
tests the masked byte with bitwise AND instead of comparing the high
nibble, so a DATA message 0xA0 matches the set-protocol branch
(0xA0 AND 0x60 = 0x20) and gets the reply 0x00 although the spec says
it gets none, and the message 0x90 matches the data branch
(0x90 AND 0xA0 = 0x80) and gets no reply although the spec says it gets
0x0e.  High nibble 0x6 behaves as specified, and so does 0x10, shown
for contrast. -/
theorem C1_handshake_divergence :
    handshakeReply 0xA0 = [[0x00]] ∧
    handshakeReply 0x90 = [] ∧
    handshakeReply 0x63 = [[0x00]] ∧
    handshakeReply 0x10 = [[0x0e]] := by
  decide

/-- C2: over every sequence of Connect and Disconnect events, at most
one client sits in the active-client slot at any instant, and a Connect
issued while the slot is occupied returns the in-use error and leaves
the incumbent client in place. -/
theorem C2_single_active_client :
    (∀ (kb0 : Keyboard) (evs : List KEvent) (kb : Keyboard),
        run kb0 evs = some kb → activeCount kb ≤ 1) ∧
    (∀ (kb : Keyboard) (inc c : Client) (w1 w2 : Bool),
        kb.client = some inc →
          (Connect kb c w1 w2).2 = ConnectResult.inUse ∧
          (Connect kb c w1 w2).1.client = some inc) := by
  constructor
  · intro kb0 evs kb _
    cases h : kb.client <;> simp [activeCount, h]
  · intro kb inc c w1 w2 h
    simp [Connect, h]

/-- C2 witness at a concrete occupied slot and a one-event run. -/
theorem C2_single_active_client_witness :
    activeCount { client := some cA } ≤ 1 ∧
    ((Connect { client := some cA } cB true true).2 = ConnectResult.inUse ∧
     (Connect { client := some cA } cB true true).1.client = some cA) :=
  ⟨C2_single_active_client.1 { client := none }
      [KEvent.conn cA true true] { client := some cA } (by decide),
   C2_single_active_client.2 { client := some cA } cA cB true true rfl⟩

/-- C3: one HandleHID iteration with a successfully read report issues,
when a client is active, exactly one interrupt-socket write, namely the
byte 0xA1 followed by the report, of length one more than the report;
with no active client it issues no write. -/
theorem C3_hid_relay (state : List Nat) (c : Client) :
    handleHIDIteration (some state) (some c) = [(c.sintr, 0xA1 :: state)] ∧
    (0xA1 :: state).length = state.length + 1 ∧
    (0xA1 :: state).headI = 0xA1 ∧
    (0xA1 :: state).tail = state ∧
    handleHIDIteration (some state) none = [] :=
  ⟨rfl, rfl, rfl, rfl, rfl⟩

/-- C4: disconnecting a non-nil client whose identity differs from the
identity of the active client returns a nil error and does nothing: no
socket close, no done signal, no change to the slot. -/
theorem C4_stale_disconnect (kb : Keyboard) (inc c : Client)
    (e1 e2 : Option BtError) (hact : kb.client = some inc)
    (hne : c.dev ≠ inc.dev) :
    Disconnect kb (some c) e1 e2 =
      { kb := kb, outcome := DisconnectOutcome.returned none
        closedSctrl := false, closedSintr := false, doneFired := false } := by
  simp [Disconnect, hact, hne]

/-- C4 witness: cB disconnected while cA holds the slot. -/
theorem C4_stale_disconnect_witness :
    Disconnect { client := some cA } (some cB) none none =
      { kb := { client := some cA }
        outcome := DisconnectOutcome.returned none
        closedSctrl := false, closedSintr := false, doneFired := false } :=
  C4_stale_disconnect { client := some cA } cA cB none none rfl (by decide)

/-- C5: disconnecting the active client always clears the slot and
fires the done signal, whatever the two socket-close results are, and
the returned error is the first close error encountered: the control
close error when there is one, otherwise the interrupt close result. -/
theorem C5_disconnect_active (kb : Keyboard) (c : Client)
    (e1 e2 : Option BtError) (hact : kb.client = some c) :
    (Disconnect kb (some c) e1 e2).kb.client = none ∧
    (Disconnect kb (some c) e1 e2).doneFired = true ∧
    (Disconnect kb (some c) e1 e2).outcome =
      DisconnectOutcome.returned (if e1.isSome then e1 else e2) := by
  cases e1 <;> simp [Disconnect, hact]

/-- C5 witness: both socket closes fail, the slot still clears, the
done signal still fires, and the control-close error is returned. -/
theorem C5_disconnect_active_witness :
    (Disconnect { client := some cA } (some cA)
        (some BtError.eOther) (some BtError.ebadf)).kb.client = none ∧
    (Disconnect { client := some cA } (some cA)
        (some BtError.eOther) (some BtError.ebadf)).doneFired = true ∧
    (Disconnect { client := some cA } (some cA)
        (some BtError.eOther) (some BtError.ebadf)).outcome =
      DisconnectOutcome.returned
        (if (some BtError.eOther).isSome then some BtError.eOther
         else some BtError.ebadf) :=
  C5_disconnect_active { client := some cA } cA
    (some BtError.eOther) (some BtError.ebadf) rfl

/-- C6: when the kernel answers finitely many EAGAIN or ECONNABORTED
results and then a good descriptor, Accept ends and hands the caller
that connection with no error, sleeping once per EAGAIN and not at all
for ECONNABORTED; and when the kernel answers any other error after the
transients, the loop ends with that error after closing the partial
descriptor. -/
theorem C6_accept_retry :
    (∀ (pre : List AcceptRes) (fd psm : Nat) (addr : List Nat)
        (rest : List AcceptRes), (∀ r ∈ pre, transientRes r) →
        Accept (pre ++ AcceptRes.ok fd psm addr :: rest) none =
          (countEagain pre, AcceptReturn.conn fd psm addr)) ∧
    (∀ (pre : List AcceptRes) (e : BtError) (rest : List AcceptRes)
        (sb : Option BtError), (∀ r ∈ pre, transientRes r) →
        Accept (pre ++ AcceptRes.fatal e :: rest) sb =
          (countEagain pre, AcceptReturn.err e) ∧
        (acceptLoop (pre ++ AcceptRes.fatal e :: rest) 0).2 =
          AcceptOutcome.fatalErr e true) := by
  constructor
  · intro pre fd psm addr rest h
    unfold Accept
    rw [acceptLoop_append_transient pre _ 0 h]
    simp [acceptLoop]
  · intro pre e rest sb h
    unfold Accept
    rw [acceptLoop_append_transient pre _ 0 h]
    cases sb <;> simp [acceptLoop]

/-- C6 witness: two EAGAIN and one ECONNABORTED before success give the
connection with two sleeps, and the same transients before EBADF give
that error with the partial descriptor closed. -/
theorem C6_accept_retry_witness :
    (Accept ([AcceptRes.eagain, AcceptRes.econnaborted, AcceptRes.eagain] ++
        AcceptRes.ok 7 0x13 [1, 2, 3, 4, 5, 6] :: []) none =
      (countEagain [AcceptRes.eagain, AcceptRes.econnaborted, AcceptRes.eagain],
       AcceptReturn.conn 7 0x13 [1, 2, 3, 4, 5, 6])) ∧
    (Accept ([AcceptRes.eagain, AcceptRes.econnaborted, AcceptRes.eagain] ++
        AcceptRes.fatal BtError.ebadf :: []) none =
      (countEagain [AcceptRes.eagain, AcceptRes.econnaborted, AcceptRes.eagain],
       AcceptReturn.err BtError.ebadf) ∧
     (acceptLoop ([AcceptRes.eagain, AcceptRes.econnaborted, AcceptRes.eagain] ++
        AcceptRes.fatal BtError.ebadf :: []) 0).2 =
       AcceptOutcome.fatalErr BtError.ebadf true) :=
  ⟨C6_accept_retry.1 [AcceptRes.eagain, AcceptRes.econnaborted, AcceptRes.eagain]
      7 0x13 [1, 2, 3, 4, 5, 6] [] (by decide),
   C6_accept_retry.2 [AcceptRes.eagain, AcceptRes.econnaborted, AcceptRes.eagain]
      BtError.ebadf [] none (by decide)⟩

/-- C7: packing the L2CAP address structure for PSM 0x13 and device
address 1,2,3,4,5,6 and unpacking the resulting ten raw bytes yields
the identical PSM and the identical six address bytes. -/
theorem C7_sockaddr_roundtrip :
    unpackPsm (sockaddr 0x13 [1, 2, 3, 4, 5, 6]) = 0x13 ∧
    unpackBdaddr (sockaddr 0x13 [1, 2, 3, 4, 5, 6]) = [1, 2, 3, 4, 5, 6] ∧
    (sockaddr 0x13 [1, 2, 3, 4, 5, 6]).length = 10 := by
  decide

/-- C8 counterexample: a socket with descriptor 5 open in the kernel
table is closed once with success; the stored descriptor is not
cleared, so a second Close passes the positivity guard, reinvokes the
kernel close on the stale descriptor and gets EBADF back, not the
InvalidArgument error the claim promises for an already-closed
socket. -/
theorem C8_close_counterexample :
    btClose [5] 5 = ([], none) ∧
    btClose (btClose [5] 5).1 5 = ([], some BtError.ebadf) ∧
    some BtError.ebadf ≠ some BtError.einval := by
  decide

/-- C8 amended: Close fails with InvalidArgument exactly when the
stored descriptor is not positive (unset); a positive descriptor is
always handed to the kernel close, which closes it when it is open and
answers EBADF when it is not, prior Close calls included, since the
stored descriptor is never cleared. -/
theorem C8_close_amended (table : List Int) (fd : Int) :
    (fd ≤ 0 → btClose table fd = (table, some BtError.einval)) ∧
    (0 < fd → fd ∈ table → btClose table fd = (table.erase fd, none)) ∧
    (0 < fd → fd ∉ table → btClose table fd = (table, some BtError.ebadf)) := by
  refine ⟨fun h => ?_, fun hpos hmem => ?_, fun hpos hmem => ?_⟩
  · simp [btClose, h]
  · simp [btClose, unixClose, hmem, not_le.mpr hpos]
  · simp [btClose, unixClose, hmem, not_le.mpr hpos]

/-- C8 amended witness at descriptors 0 and 5. -/
theorem C8_close_amended_witness :
    btClose [5] 0 = ([5], some BtError.einval) ∧
    btClose [5] 5 = (List.erase [5] 5, none) ∧
    btClose [] 5 = ([], some BtError.ebadf) :=
  ⟨(C8_close_amended [5] 0).1 (by decide),
   (C8_close_amended [5] 5).2.1 (by decide) (by decide),
   (C8_close_amended [] 5).2.2 (by decide) (by decide)⟩

/-- C9: a Disconnect of a non-nil client while the slot is empty
evaluates the device identity of the nil active client and panics; it
does not take the silent no-op return of the stale path. -/
theorem C9_empty_slot_panic (kb : Keyboard) (c : Client)
    (e1 e2 : Option BtError) (h : kb.client = none) :
    (Disconnect kb (some c) e1 e2).outcome = DisconnectOutcome.panicked ∧
    (Disconnect kb (some c) e1 e2).outcome ≠
      DisconnectOutcome.returned none := by
  simp [Disconnect, h]

/-- C9 witness: disconnecting cA from an empty keyboard. -/
theorem C9_empty_slot_panic_witness :
    (Disconnect { client := none } (some cA) none none).outcome =
      DisconnectOutcome.panicked ∧
    (Disconnect { client := none } (some cA) none none).outcome ≠
      DisconnectOutcome.returned none :=
  C9_empty_slot_panic { client := none } cA none none rfl

/-- C10: a Connect into an empty slot stores the client before the two
hello writes; when either write fails, Connect returns an error and the
client stays stored, so a second Connect fails with the in-use error. -/
theorem C10_failed_hello_keeps_client (kb : Keyboard) (c c2 : Client)
    (w1 w2 w1b w2b : Bool) (h : kb.client = none)
    (hw : w1 = false ∨ w2 = false) :
    (Connect kb c w1 w2).2 ≠ ConnectResult.ok ∧
    (Connect kb c w1 w2).1.client = some c ∧
    (Connect (Connect kb c w1 w2).1 c2 w1b w2b).2 = ConnectResult.inUse := by
  rcases hw with hw | hw
  · subst hw; cases w2 <;> simp [Connect, h]
  · subst hw; cases w1 <;> simp [Connect, h]

/-- C10 witness: first hello write fails, client stays, next Connect is
refused in-use. -/
theorem C10_failed_hello_keeps_client_witness :
    (Connect { client := none } cA false true).2 ≠ ConnectResult.ok ∧
    (Connect { client := none } cA false true).1.client = some cA ∧
    (Connect (Connect { client := none } cA false true).1
       cB true true).2 = ConnectResult.inUse :=
  C10_failed_hello_keeps_client { client := none } cA cB false true true true
    rfl (Or.inl rfl)

end Btk
